import Mathlib

/-!
Verification development for the chrome-tiff-viewer OCR pipeline.

Shallow embedding of the OCR request/response pipeline of the extension:
the background service worker (Coordinator) with its `pendingOcrRequests`
correlation table and progress forwarding, the offscreen document (Worker
Host) with `initWorker`, `createInlinedWorkerBlob`, `recognize` and the
`ocr-terminate` handler, and the viewer-side batch OCR workflow
(`TiffViewer.ocrAllPages` / `TiffViewer.ocrPage`).

JavaScript specifics are embedded as follows: a `Map` becomes an
association list, `await` boundaries become explicit atomic steps of a
small-step machine, promise rejection becomes an error outcome, wall-clock
time becomes an abstract tick count, and callbacks become identifiers
recorded in the result of a handler.
-/

set_option maxRecDepth 4000

namespace TiffOcr

/-! ## Coordinator: the `pendingOcrRequests` correlation table (background.js)

`pendingOcrRequests` is a `Map<requestId, sendResponse>`; we embed it as an
association list from the numeric request id to an identifier of the stored
callback.  `Map.get` returns the first (and, since ids are assigned by a
strictly increasing counter, only) entry for a key; `Map.delete` removes
the entries for the key. -/

/-- `pendingOcrRequests.get(requestId)`: first binding for the id, if any. -/
def lookupCb (t : List (Nat × Nat)) (rid : Nat) : Option Nat :=
  match t with
  | [] => none
  | (k, cb) :: rest => if k = rid then some cb else lookupCb rest rid

/-- `pendingOcrRequests.delete(requestId)`: remove the bindings for the id. -/
def deleteRid (t : List (Nat × Nat)) (rid : Nat) : List (Nat × Nat) :=
  match t with
  | [] => []
  | (k, cb) :: rest =>
    if k = rid then deleteRid rest rid else (k, cb) :: deleteRid rest rid

/-- The reduced serializable bounding box `{x0, y0, x1, y1}` built in
`recognize` (offscreen.js).  Numeric pixel coordinates are embedded as
integers. -/
structure SerBbox where
  x0 : Int
  y0 : Int
  x1 : Int
  y1 : Int
deriving Repr, DecidableEq

/-- The reduced serializable word `{text, confidence, bbox}` built in
`recognize` (offscreen.js); `bbox` is `null` when the engine word had no
bbox. -/
structure SerWord where
  text : String
  confidence : Int
  bbox : Option SerBbox
deriving Repr, DecidableEq

/-- The reduced serializable OCR result `{text, confidence, words}` that
`recognize` returns and that crosses the context boundary. -/
structure OcrData where
  text : String
  confidence : Int
  words : List SerWord
deriving Repr, DecidableEq

/-- An `ocr-response` runtime message, as sent by the offscreen helper
`respond`: the request id is copied from the request, `success` selects
between `data` and `error`.  `fromOffscreen` records whether
`sender.url?.includes(&quot;offscreen&quot;)` holds for the message. -/
structure OcrResponse where
  requestId : Nat
  success : Bool
  data : Option OcrData
  error : Option String
  fromOffscreen : Bool
deriving Repr, DecidableEq

/-- Background `onMessage` branch for `type === 'ocr-response'`: when the
sender is the offscreen document, look the id up in `pendingOcrRequests`;
if found, invoke the stored callback and delete the entry; otherwise do
nothing.  Returns the updated table together with the callback invoked (if
any); a `none` second component means no callback ran. -/
def handleOcrResponse (t : List (Nat × Nat)) (m : OcrResponse) :
    List (Nat × Nat) × Option Nat :=
  if m.fromOffscreen then
    match lookupCb t m.requestId with
    | some cb => (deleteRid t m.requestId, some cb)
    | none => (t, none)
  else (t, none)

theorem lookupCb_deleteRid (t : List (Nat × Nat)) (rid r : Nat) :
    lookupCb (deleteRid t rid) r = if r = rid then none else lookupCb t r := by
  induction t with
  | nil =>
    simp only [deleteRid, lookupCb]
    split <;> rfl
  | cons hd tl ih =>
    obtain ⟨k, cb⟩ := hd
    by_cases hk : k = rid
    · have hdel : deleteRid ((k, cb) :: tl) rid = deleteRid tl rid := by
        simp [deleteRid, hk]
      rw [hdel, ih]
      by_cases hr : r = rid
      · simp [hr]
      · have hkr : ¬ k = r := by omega
        simp [hr, lookupCb, hkr]
    · have hdel : deleteRid ((k, cb) :: tl) rid = (k, cb) :: deleteRid tl rid := by
        simp [deleteRid, hk]
      rw [hdel]
      by_cases hkr : k = r
      · have hr : ¬ r = rid := by omega
        simp [lookupCb, hkr, hr]
      · simp [lookupCb, hkr, ih]

theorem deleteRid_of_lookup_none (t : List (Nat × Nat)) (rid : Nat)
    (h : lookupCb t rid = none) : deleteRid t rid = t := by
  induction t with
  | nil => rfl
  | cons hd tl ih =>
    obtain ⟨k, cb⟩ := hd
    by_cases hk : k = rid
    · simp [lookupCb, hk] at h
    · simp only [lookupCb, if_neg hk] at h
      simp [deleteRid, hk, ih h]

/-- C2: every pending OCR request is resolved exactly once by the
coordinator.  On an `ocr-response` from the offscreen document: the
callback invoked is exactly the one stored for the id (and nothing is
invoked when the id is unknown); the entry for the id is deleted while all
other entries keep their bindings; an unknown (late, duplicate) id leaves
the table unchanged and invokes nothing, without any failure outcome (the
handler is a total function); and re-delivering the same response is a
no-op on the resulting table. -/
theorem ocr_response_resolved_exactly_once (t : List (Nat × Nat))
    (m : OcrResponse) (hoff : m.fromOffscreen = true) :
    (handleOcrResponse t m).2 = lookupCb t m.requestId
    ∧ (∀ r : Nat, r ≠ m.requestId →
        lookupCb (handleOcrResponse t m).1 r = lookupCb t r)
    ∧ lookupCb (handleOcrResponse t m).1 m.requestId = none
    ∧ (lookupCb t m.requestId = none → handleOcrResponse t m = (t, none))
    ∧ handleOcrResponse (handleOcrResponse t m).1 m
        = ((handleOcrResponse t m).1, none) := by
  rcases hcb : lookupCb t m.requestId with _ | cb
  · have hh : handleOcrResponse t m = (t, none) := by
      simp [handleOcrResponse, hoff, hcb]
    refine ⟨?_, ?_, ?_, ?_, ?_⟩
    · simp [hh, hcb]
    · intro r _; simp [hh]
    · simp [hh, hcb]
    · intro _; exact hh
    · simp [hh, handleOcrResponse, hoff, hcb]
  · have hh : handleOcrResponse t m = (deleteRid t m.requestId, some cb) := by
      simp [handleOcrResponse, hoff, hcb]
    have hgone : lookupCb (deleteRid t m.requestId) m.requestId = none := by
      rw [lookupCb_deleteRid]; simp
    refine ⟨?_, ?_, ?_, ?_, ?_⟩
    · simp [hh, hcb]
    · intro r hr
      simp only [hh]
      rw [lookupCb_deleteRid]
      simp [hr]
    · simp [hh, hgone]
    · intro hcontra
      simp_all
    · simp [hh, handleOcrResponse, hoff, hcb, hgone]

/-- Witness for C2 at a concrete table: requests 1 and 2 pending with
callbacks 10 and 20; a response for id 1 invokes callback 10, keeps the
entry for id 2 and leaves no entry for id 1. -/
theorem ocr_response_resolved_exactly_once_witness :
    (handleOcrResponse [(1, 10), (2, 20)]
        ⟨1, true, none, none, true⟩).2 = some 10
    ∧ lookupCb (handleOcrResponse [(1, 10), (2, 20)]
        ⟨1, true, none, none, true⟩).1 2 = some 20
    ∧ lookupCb (handleOcrResponse [(1, 10), (2, 20)]
        ⟨1, true, none, none, true⟩).1 1 = none := by
  have h := ocr_response_resolved_exactly_once [(1, 10), (2, 20)]
    ⟨1, true, none, none, true⟩ rfl
  exact ⟨h.1.trans (by decide), (h.2.1 2 (by decide)).trans (by decide),
    h.2.2.1⟩

/-! ## Worker Host: offscreen document state and `initWorker` (offscreen.js)

The offscreen module keeps two globals, `tesseractWorker` and
`workerReady`, plus the ambient `self.Worker` constructor that
`initWorker` temporarily replaces.  `initWorker` is an async function; its
execution is a sequence of atomic regions separated by `await` points:

* region 1 (`start`): the guard `if (tesseractWorker && workerReady)
  return;`, the `typeof Tesseract` check, and the call to
  `createInlinedWorkerBlob()` (first `await`);
* region 2 (`afterBlob`): patch `self.Worker` to the intercepting
  constructor, then call `Tesseract.createWorker(...)` (second `await`)
  which spawns a fresh engine instance;
* region 3 (`afterCreate`): assign `tesseractWorker`, restore
  `self.Worker` to the saved original, set `workerReady = true`.

If the `createWorker` promise rejects, the `catch` block rethrows without
restoring `self.Worker` (the invocation ends in `failed`).  Engine
instances are numbered by a counter so that distinct creations are
distinguishable. -/

/-- Offscreen module state: the two globals of offscreen.js, whether
`self.Worker` currently holds the patched constructor, and how many engine
instances `Tesseract.createWorker` has spawned so far. -/
structure OffscreenState where
  tesseractWorker : Option Nat
  workerReady : Bool
  workerPatched : Bool
  enginesCreated : Nat
deriving Repr, DecidableEq

/-- State of the offscreen document when its script has just loaded. -/
def initialOffscreenState : OffscreenState :=
  { tesseractWorker := none, workerReady := false, workerPatched := false,
    enginesCreated := 0 }

/-- Program counter of one `initWorker` invocation, between await points. -/
inductive InitPC where
  | start
  | afterBlob
  | afterCreate (eid : Nat)
  | done
  | failed
deriving Repr, DecidableEq

/-- One atomic region of `initWorker`.  `createOk` tells whether the
pending `Tesseract.createWorker` promise resolves (`true`) or rejects
(`false`); it is only consulted in the `afterBlob` region. -/
def initStep (s : OffscreenState) (pc : InitPC) (createOk : Bool) :
    OffscreenState × InitPC :=
  match pc with
  | .start =>
    if s.tesseractWorker.isSome && s.workerReady then (s, .done)
    else (s, .afterBlob)
  | .afterBlob =>
    let s1 := { s with workerPatched := true,
                       enginesCreated := s.enginesCreated + 1 }
    if createOk then (s1, .afterCreate s.enginesCreated)
    else (s1, .failed)
  | .afterCreate eid =>
    ({ s with tesseractWorker := some eid, workerPatched := false,
              workerReady := true }, .done)
  | .done => (s, .done)
  | .failed => (s, .failed)

/-- Run several interleaved `initWorker` invocations (one program counter
per caller) under a schedule; each schedule entry picks the caller that
runs its next atomic region and whether a `createWorker` call made in that
region succeeds.  Entries naming a missing caller are skipped. -/
def runInitSched (sched : List (Nat × Bool)) (s : OffscreenState)
    (pcs : List InitPC) : OffscreenState × List InitPC :=
  match sched with
  | [] => (s, pcs)
  | (i, ok) :: rest =>
    match pcs[i]? with
    | none => runInitSched rest s pcs
    | some pc =>
      let step := initStep s pc ok
      runInitSched rest step.1 (pcs.set i step.2)

/-- One full, successful, uninterleaved `initWorker` invocation: the three
regions of a single caller run back to back. -/
def runInitSerial (s : OffscreenState) : OffscreenState :=
  (runInitSched [(0, true), (0, true), (0, true)] s [InitPC.start]).1

theorem runInitSerial_initial :
    runInitSerial initialOffscreenState =
      { tesseractWorker := some 0, workerReady := true,
        workerPatched := false, enginesCreated := 1 } := by
  decide

theorem runInitSerial_fixed :
    runInitSerial
        { tesseractWorker := some 0, workerReady := true,
          workerPatched := false, enginesCreated := 1 } =
      { tesseractWorker := some 0, workerReady := true,
        workerPatched := false, enginesCreated := 1 } := by
  decide

/-- C1 counterexample: two initWorker callers whose executions overlap
(both pass the readiness guard before either assigns `tesseractWorker`)
each spawn an engine instance.  Under the interleaving that alternates the
two callers region by region, the run ends with both callers done, the
host ready, but `enginesCreated = 2`: the Worker Host does not end with
exactly one live engine, and the second caller did not await the in-flight
attempt of the first. -/
theorem concurrent_init_creates_two_engines :
    (runInitSched [(0, true), (1, true), (0, true), (1, true), (0, true),
        (1, true)] initialOffscreenState [InitPC.start, InitPC.start]).1
      = { tesseractWorker := some 1, workerReady := true,
          workerPatched := false, enginesCreated := 2 }
    ∧ (runInitSched [(0, true), (1, true), (0, true), (1, true), (0, true),
        (1, true)] initialOffscreenState [InitPC.start, InitPC.start]).2
      = [InitPC.done, InitPC.done] := by
  decide

/-- C1 (amended): `initWorker` carries no in-flight guard, so only
serialized (non-overlapping) `Init` calls are de-duplicated: any positive
number of back-to-back successful `initWorker` invocations ends with the
host ready and exactly one engine instance ever created, the first call
creating it and every later call returning at the readiness guard without
touching the state. -/
theorem serialized_init_exactly_one_engine (k : Nat) (hk : 1 ≤ k) :
    runInitSerial^[k] initialOffscreenState =
      { tesseractWorker := some 0, workerReady := true,
        workerPatched := false, enginesCreated := 1 } := by
  obtain ⟨j, rfl⟩ : ∃ j, k = j + 1 := ⟨k - 1, by omega⟩
  rw [Function.iterate_succ_apply, runInitSerial_initial]
  exact Function.iterate_fixed runInitSerial_fixed j

/-- Witness for C1 (amended) at three serialized calls. -/
theorem serialized_init_exactly_one_engine_witness :
    runInitSerial^[3] initialOffscreenState =
      { tesseractWorker := some 0, workerReady := true,
        workerPatched := false, enginesCreated := 1 } :=
  serialized_init_exactly_one_engine 3 (by decide)

/-- C4 counterexample: a single `initWorker` invocation whose
`Tesseract.createWorker` promise rejects completes (by rethrowing from the
catch block) with `self.Worker` still holding the substituted constructor:
the original worker-spawning primitive is not restored on this exit path. -/
theorem failed_init_leaves_worker_patched :
    (runInitSched [(0, true), (0, false)] initialOffscreenState
        [InitPC.start]).1.workerPatched = true
    ∧ (runInitSched [(0, true), (0, false)] initialOffscreenState
        [InitPC.start]).2 = [InitPC.failed] := by
  decide

/-- C4 (amended): the original `Worker` constructor is restored on the
successful exit path only.  The `afterCreate` region always clears the
substitution and completes the invocation, and a full successful
`initWorker` run from a clean state ends with `self.Worker` restored;
the failing path (see the counterexample) leaves it substituted. -/
theorem worker_restored_on_success_path (s : OffscreenState) (eid : Nat)
    (ok : Bool) :
    (initStep s (InitPC.afterCreate eid) ok).1.workerPatched = false
    ∧ (initStep s (InitPC.afterCreate eid) ok).2 = InitPC.done
    ∧ (runInitSched [(0, true), (0, true), (0, true)] initialOffscreenState
        [InitPC.start]).1.workerPatched = false := by
  refine ⟨rfl, rfl, by decide⟩

/-- `ocr-terminate` handler of offscreen.js: when an engine instance
exists, terminate it and reset both globals; in all cases respond
`{success: true}`.  Returns the new state and the `success` field of the
response. -/
def handleTerminate (s : OffscreenState) : OffscreenState × Bool :=
  match s.tesseractWorker with
  | some _ => ({ s with tesseractWorker := none, workerReady := false }, true)
  | none => (s, true)

/-- The state invariant of the offscreen globals: `workerReady` is only
set while an engine instance is held.  It holds initially and is preserved
by every atomic region of `initWorker` and by the terminate handler, since
`tesseractWorker` and `workerReady` are only updated together inside one
atomic region. -/
def ReadyImpliesWorker (s : OffscreenState) : Prop :=
  s.workerReady = true → s.tesseractWorker ≠ none

theorem readyImpliesWorker_initial : ReadyImpliesWorker initialOffscreenState := by
  intro h
  cases h

theorem initStep_preserves_ready_inv (s : OffscreenState) (pc : InitPC)
    (ok : Bool) (h : ReadyImpliesWorker s) :
    ReadyImpliesWorker (initStep s pc ok).1 := by
  cases pc with
  | start =>
    by_cases hg : s.tesseractWorker.isSome && s.workerReady
    · simpa [initStep, hg] using h
    · simpa [initStep, hg] using h
  | afterBlob =>
    cases ok <;> simpa [initStep, ReadyImpliesWorker] using h
  | afterCreate eid => simp [initStep, ReadyImpliesWorker]
  | done => exact h
  | failed => exact h

theorem handleTerminate_preserves_ready_inv (s : OffscreenState)
    (h : ReadyImpliesWorker s) : ReadyImpliesWorker (handleTerminate s).1 := by
  cases hw : s.tesseractWorker <;>
    simp_all [handleTerminate, ReadyImpliesWorker]

/-- C10: on every state satisfying the reachable-state invariant (ready
implies an engine is held), `ocr-terminate` responds `{success: true}` and
leaves `tesseractWorker = null` and `workerReady = false`; when no engine
exists the state is untouched; and terminating again is a no-op that still
succeeds, so termination never produces the ready-with-null-engine state. -/
theorem terminate_idempotent_and_resets (s : OffscreenState)
    (h : ReadyImpliesWorker s) :
    (handleTerminate s).2 = true
    ∧ (handleTerminate s).1.tesseractWorker = none
    ∧ (handleTerminate s).1.workerReady = false
    ∧ (s.tesseractWorker = none → (handleTerminate s).1 = s)
    ∧ handleTerminate (handleTerminate s).1 = ((handleTerminate s).1, true) := by
  cases hw : s.tesseractWorker with
  | none =>
    have hready : s.workerReady = false := by
      cases hr : s.workerReady
      · rfl
      · exact absurd hw (h hr)
    refine ⟨by simp [handleTerminate, hw], by simp [handleTerminate, hw, hw],
      by simp [handleTerminate, hw, hready], fun _ => by simp [handleTerminate, hw],
      by simp [handleTerminate, hw]⟩
  | some e =>
    refine ⟨by simp [handleTerminate, hw], by simp [handleTerminate, hw],
      by simp [handleTerminate, hw], fun hc => absurd hc (by simp),
      by simp [handleTerminate, hw]⟩

/-- Witness for C10 at the ready state holding engine 0, and at the
uninitialized state. -/
theorem terminate_idempotent_and_resets_witness :
    (handleTerminate
        { tesseractWorker := some 0, workerReady := true,
          workerPatched := false, enginesCreated := 1 }).2 = true
    ∧ (handleTerminate
        { tesseractWorker := some 0, workerReady := true,
          workerPatched := false, enginesCreated := 1 }).1.tesseractWorker = none
    ∧ (handleTerminate
        { tesseractWorker := some 0, workerReady := true,
          workerPatched := false, enginesCreated := 1 }).1.workerReady = false
    ∧ (handleTerminate initialOffscreenState).2 = true := by
  have h1 := terminate_idempotent_and_resets
    { tesseractWorker := some 0, workerReady := true,
      workerPatched := false, enginesCreated := 1 } (by intro _; simp)
  have h2 := terminate_idempotent_and_resets initialOffscreenState
    readyImpliesWorker_initial
  exact ⟨h1.1, h1.2.1, h1.2.2.1, h2.1⟩

/-! ## Bundle Synthesizer: `createInlinedWorkerBlob` (offscreen.js)

The function fetches `tesseract-worker.min.js` and
`tesseract-core-simd.wasm.js` as text through `Promise.all` and splices
both into one template literal.  Each fetch is embedded as an
`Option String` (`none` = the fetch, or reading its body, rejects);
`Promise.all` rejects as soon as either input rejects, and the order in
which the two fetches settle is an explicit parameter shown to be
irrelevant.  The literal text chunks of the template are kept verbatim. -/

/-- Text of the blob template before `coreCode` is spliced in: the comment
banner and the line mocking `importScripts` as a no-op. -/
def blobPreamble : String :=
  "\n// Mock importScripts - core is inlined\nself.importScripts = function() \x7b\x7d;\n\n// Inlined Tesseract Core\n"

/-- Text of the blob template between `coreCode` and `workerCode`. -/
def blobSeparator : String := "\n\n// Inlined Tesseract Worker\n"

/-- Text of the blob template after `workerCode`. -/
def blobSuffix : String := "\n"

/-- The `blobCode` template literal of `createInlinedWorkerBlob`. -/
def blobCode (workerCode coreCode : String) : String :=
  blobPreamble ++ coreCode ++ blobSeparator ++ workerCode ++ blobSuffix

/-- `Promise.all` over the two fetches.  `coreFirst` records which fetch
settles first; the combined promise resolves with both texts when both
resolve and rejects when either rejects. -/
def promiseAllFetches (coreFirst : Bool) (workerFetch coreFetch : Option String) :
    Option (String × String) :=
  if coreFirst then
    match coreFetch with
    | none => none
    | some c =>
      match workerFetch with
      | none => none
      | some w => some (w, c)
  else
    match workerFetch with
    | none => none
    | some w =>
      match coreFetch with
      | none => none
      | some c => some (w, c)

/-- `createInlinedWorkerBlob`: synthesize the single blob text from the
two fetched scripts, or fail without materializing anything when either
fetch fails. -/
def createInlinedWorkerBlob (coreFirst : Bool)
    (workerFetch coreFetch : Option String) : Option String :=
  (promiseAllFetches coreFirst workerFetch coreFetch).map
    (fun p => blobCode p.1 p.2)

/-- C5: bundle synthesis is independent of the order in which the two
concurrent fetches settle; when both fetches succeed it produces exactly
the preamble that no-ops `importScripts`, followed by the core-engine
text, followed by the worker-driver text (driver after core); and when
either fetch fails the whole synthesis fails with no bundle materialized. -/
theorem createInlinedWorkerBlob_structure :
    (∀ (o1 o2 : Bool) (wf cf : Option String),
      createInlinedWorkerBlob o1 wf cf = createInlinedWorkerBlob o2 wf cf)
    ∧ (∀ w c : String,
      createInlinedWorkerBlob true (some w) (some c)
        = some (blobPreamble ++ c ++ blobSeparator ++ w ++ blobSuffix))
    ∧ (∀ cf : Option String, createInlinedWorkerBlob true none cf = none)
    ∧ (∀ wf : Option String, createInlinedWorkerBlob true wf none = none) := by
  refine ⟨?_, ?_, ?_, ?_⟩
  · intro o1 o2 wf cf
    cases o1 <;> cases o2 <;> cases wf <;> cases cf <;>
      simp [createInlinedWorkerBlob, promiseAllFetches]
  · intro w c
    rfl
  · intro cf
    cases cf <;> rfl
  · intro wf
    cases wf <;> rfl

/-! ## OCR Engine Adapter: `recognize` with timeout (offscreen.js)

`recognize` races `tesseractWorker.recognize(imageData)` against a
180000 ms timeout promise and, on success, projects the native Tesseract
result to the reduced serializable shape.  The native engine call is
embedded by its resolution time and native result (`none` = it never
resolves); wall-clock time is an abstract tick count. -/

/-- A bounding box of the native engine result. -/
structure TessBbox where
  x0 : Int
  y0 : Int
  x1 : Int
  y1 : Int
deriving Repr, DecidableEq

/-- A word of the native engine result: the fields `recognize` reads, plus
engine internals (`choices`, `baseline`) that the reduction drops. -/
structure TessWord where
  text : String
  confidence : Int
  bbox : Option TessBbox
  choices : List String
  baseline : Int
deriving Repr, DecidableEq

/-- The `data` field of the native engine result; `words` is absent when
the engine reports none. -/
structure TessData where
  text : String
  confidence : Int
  words : Option (List TessWord)
deriving Repr, DecidableEq

/-- The native `Tesseract.recognize` result object: its `data` field plus
non-transferable internals (job bookkeeping and a handle to the worker)
that must never cross a context boundary. -/
structure TesseractResult where
  data : TessData
  jobId : String
  workerHandle : Nat
deriving Repr, DecidableEq

/-- Projection of a native bbox to the serializable `{x0, y0, x1, y1}`. -/
def reduceBbox (b : TessBbox) : SerBbox :=
  { x0 := b.x0, y0 := b.y0, x1 := b.x1, y1 := b.y1 }

/-- Projection of a native word to the serializable
`{text, confidence, bbox}`; a missing bbox stays `null`. -/
def reduceWord (w : TessWord) : SerWord :=
  { text := w.text, confidence := w.confidence, bbox := w.bbox.map reduceBbox }

/-- The serializable extraction performed by `recognize` on the native
result: only `data.text`, `data.confidence` and the reduced words are
kept; missing `data.words` becomes the empty list. -/
def extractSerializable (result : TesseractResult) : OcrData :=
  { text := result.data.text
    confidence := result.data.confidence
    words :=
      match result.data.words with
      | some ws => ws.map reduceWord
      | none => [] }

/-- The fixed recognition timeout of offscreen.js, in milliseconds. -/
def RECOGNITION_TIMEOUT_MS : Nat := 180000

/-- Message of the rejection produced by the timeout promise. -/
def timeoutErrorMessage : String := "Recognition timed out after 3 minutes"

/-- Outcome of `Promise.race` between the engine call and the timeout. -/
inductive RaceOutcome where
  | settled (t : Nat) (d : OcrData)
  | timedOut (t : Nat)
deriving Repr, DecidableEq

/-- `Promise.race([tesseractWorker.recognize(imageData), timeoutPromise])`
followed by the serializable extraction: an engine call that resolves at
tick `t` before the bound wins the race; one that never resolves (or
resolves no earlier than the bound) loses to the timeout rejection fired
at exactly `RECOGNITION_TIMEOUT_MS`. -/
def raceRecognize (engine : Option (Nat × TesseractResult)) : RaceOutcome :=
  match engine with
  | none => .timedOut RECOGNITION_TIMEOUT_MS
  | some (t, r) =>
    if t < RECOGNITION_TIMEOUT_MS then .settled t (extractSerializable r)
    else .timedOut RECOGNITION_TIMEOUT_MS

/-- The offscreen `ocr-recognize` message handler: run `recognize` and
send an `ocr-response` carrying the request id — the extracted data on
success, the timeout error on a lost race. -/
def handleRecognizeRequest (rid : Nat) (engine : Option (Nat × TesseractResult)) :
    OcrResponse :=
  match raceRecognize engine with
  | .settled _ d =>
    { requestId := rid, success := true, data := some d, error := none,
      fromOffscreen := true }
  | .timedOut _ =>
    { requestId := rid, success := false, data := none,
      error := some timeoutErrorMessage, fromOffscreen := true }

/-- C6: a `Recognize` whose engine call never resolves loses the race to
the timeout fired at exactly the 180000 ms bound; the offscreen document
sends a failure `ocr-response` tagged with the request id and carrying the
timeout error; and once the coordinator processes that response, the
stored callback has been invoked and the correlation table no longer
contains the request id. -/
theorem recognize_timeout_resolves_failure_and_clears_table
    (tbl : List (Nat × Nat)) (rid cb : Nat)
    (hcb : lookupCb tbl rid = some cb) :
    raceRecognize none = RaceOutcome.timedOut RECOGNITION_TIMEOUT_MS
    ∧ RECOGNITION_TIMEOUT_MS = 180000
    ∧ (handleRecognizeRequest rid none).success = false
    ∧ (handleRecognizeRequest rid none).error = some timeoutErrorMessage
    ∧ (handleRecognizeRequest rid none).requestId = rid
    ∧ (handleOcrResponse tbl (handleRecognizeRequest rid none)).2 = some cb
    ∧ lookupCb (handleOcrResponse tbl (handleRecognizeRequest rid none)).1 rid
        = none := by
  refine ⟨rfl, rfl, rfl, rfl, rfl, ?_, ?_⟩
  · simp [handleOcrResponse, handleRecognizeRequest, raceRecognize, hcb]
  · simp [handleOcrResponse, handleRecognizeRequest, raceRecognize, hcb,
      lookupCb_deleteRid]

/-- Witness for C6: request 7 pending with callback 42. -/
theorem recognize_timeout_resolves_failure_and_clears_table_witness :
    (handleOcrResponse [(7, 42)] (handleRecognizeRequest 7 none)).2 = some 42
    ∧ lookupCb (handleOcrResponse [(7, 42)] (handleRecognizeRequest 7 none)).1 7
        = none := by
  have h := recognize_timeout_resolves_failure_and_clears_table
    [(7, 42)] 7 42 rfl
  exact ⟨h.2.2.2.2.2.1, h.2.2.2.2.2.2⟩

/-- C8: a successful `ocr-recognize` response carries exactly the reduced
serializable extraction of the native result; the emitted value is a
function of the `data` field alone (two native results with equal `data`
but different internals extract identically), its `text` and `confidence`
come from `data`, and its words are the reduced words of `data.words`
(empty when the engine reported none). -/
theorem recognize_success_reduced_shape (rid t : Nat)
    (r r2 : TesseractResult) (ht : t < RECOGNITION_TIMEOUT_MS)
    (hdata : r.data = r2.data) :
    (handleRecognizeRequest rid (some (t, r))).data
        = some (extractSerializable r)
    ∧ (handleRecognizeRequest rid (some (t, r))).success = true
    ∧ extractSerializable r = extractSerializable r2
    ∧ (extractSerializable r).text = r.data.text
    ∧ (extractSerializable r).confidence = r.data.confidence
    ∧ (extractSerializable r).words = (r.data.words.getD []).map reduceWord := by
  refine ⟨?_, ?_, ?_, rfl, rfl, ?_⟩
  · simp [handleRecognizeRequest, raceRecognize, ht]
  · simp [handleRecognizeRequest, raceRecognize, ht]
  · unfold extractSerializable
    rw [hdata]
  · cases hw : r.data.words <;> simp [extractSerializable, hw]

/-- Witness for C8 at a concrete native result: same `data`, different job
internals. -/
theorem recognize_success_reduced_shape_witness :
    (handleRecognizeRequest 3
        (some (5, ⟨⟨"hi", 88, some [⟨"hi", 88, some ⟨0, 1, 2, 3⟩, ["hi"], 7⟩]⟩,
          "job-a", 1⟩))).data
      = some (extractSerializable
          ⟨⟨"hi", 88, some [⟨"hi", 88, some ⟨0, 1, 2, 3⟩, ["hi"], 7⟩]⟩,
            "job-a", 1⟩)
    ∧ extractSerializable
        ⟨⟨"hi", 88, some [⟨"hi", 88, some ⟨0, 1, 2, 3⟩, ["hi"], 7⟩]⟩,
          "job-a", 1⟩
      = extractSerializable
          ⟨⟨"hi", 88, some [⟨"hi", 88, some ⟨0, 1, 2, 3⟩, ["hi"], 7⟩]⟩,
            "job-b", 2⟩ := by
  have h := recognize_success_reduced_shape 3 5
    ⟨⟨"hi", 88, some [⟨"hi", 88, some ⟨0, 1, 2, 3⟩, ["hi"], 7⟩]⟩, "job-a", 1⟩
    ⟨⟨"hi", 88, some [⟨"hi", 88, some ⟨0, 1, 2, 3⟩, ["hi"], 7⟩]⟩, "job-b", 2⟩
    (by decide) rfl
  exact ⟨h.1, h.2.2.1⟩

/-! ## Coordinator: `ocr-progress` forwarding (background.js)

The offscreen logger emits `{type: 'ocr-progress', status, progress}` —
the message carries no request id and no origin tag.  The background
handler queries all tabs and sends the message to every tab whose URL
contains `viewer/viewer.html`. -/

/-- A browser tab as the handler observes it: its id and whether
`tab.url?.includes('viewer/viewer.html')` holds. -/
structure ChromeTab where
  id : Nat
  isViewerUrl : Bool
deriving Repr, DecidableEq

/-- The `ocr-progress` runtime message sent by the offscreen logger: only
a status string and a numeric progress payload (the 0..1 float is
abstracted to a numeric tick) — no request id, no origin. -/
structure OcrProgressMsg where
  status : String
  progressPercent : Nat
deriving Repr, DecidableEq

/-- Background `onMessage` branch for `type === 'ocr-progress'`: when the
sender is the offscreen document, forward the message to every viewer tab.
Returns the ids of tabs that receive it. -/
def forwardProgress (tabs : List ChromeTab) (fromOffscreen : Bool) :
    List Nat :=
  if fromOffscreen then
    (tabs.filter (fun tab => tab.isViewerUrl)).map (fun tab => tab.id)
  else []

/-- C3 counterexample: two viewer tabs are open concurrently; tab 1 owns
the only in-flight `Recognize` request, so every progress event of the
current recognition belongs to tab 1, yet the handler delivers the event
to tab 2 as well — a tab viewing document A receives progress generated by
document B.  (The message shape `OcrProgressMsg` carries no request id, so
the handler has nothing to route by.) -/
theorem progress_delivered_to_nonowner_tab :
    forwardProgress [⟨1, true⟩, ⟨2, true⟩] true = [1, 2]
    ∧ 2 ∈ forwardProgress [⟨1, true⟩, ⟨2, true⟩] true := by
  decide

/-- C3 (amended): `ocr-progress` events from the offscreen document are
broadcast: every tab whose URL is the viewer page receives every progress
event regardless of which request it belongs to, only viewer tabs receive
it, and messages not sent by the offscreen document are not forwarded. -/
theorem progress_broadcast_to_all_viewer_tabs (tabs : List ChromeTab) :
    (∀ tab ∈ tabs, tab.isViewerUrl = true → tab.id ∈ forwardProgress tabs true)
    ∧ (∀ i ∈ forwardProgress tabs true,
        ∃ tab ∈ tabs, tab.isViewerUrl = true ∧ tab.id = i)
    ∧ forwardProgress tabs false = [] := by
  have hfwd : forwardProgress tabs true
      = (tabs.filter (fun tab => tab.isViewerUrl)).map (fun tab => tab.id) := by
    simp [forwardProgress]
  refine ⟨?_, ?_, rfl⟩
  · intro tab htab hviewer
    rw [hfwd]
    exact List.mem_map.mpr
      ⟨tab, List.mem_filter.mpr ⟨htab, by simp [hviewer]⟩, rfl⟩
  · intro i hi
    rw [hfwd] at hi
    obtain ⟨tab, htab, rfl⟩ := List.mem_map.mp hi
    have h2 := List.mem_filter.mp htab
    exact ⟨tab, h2.1, by simpa using h2.2, rfl⟩

/-- Witness for C3 (amended): with a viewer tab 1 and a non-viewer tab 2,
tab 1 receives the event. -/
theorem progress_broadcast_to_all_viewer_tabs_witness :
    1 ∈ forwardProgress [⟨1, true⟩, ⟨2, false⟩] true :=
  (progress_broadcast_to_all_viewer_tabs [⟨1, true⟩, ⟨2, false⟩]).1
    ⟨1, true⟩ (by decide) rfl

/-! ## Origin side: batch OCR and cooperative cancellation (viewer.js)

`TiffViewer.ocrAllPages` loops over the pages, checking
`this.ocrCancelled` before starting each page; `TiffViewer.ocrPage` skips
pages that already hold `ocrData`, awaits the recognition round trip, and
checks `this.ocrCancelled` again before storing the received result.

The cooperative flag is embedded by the sequence of points at which the
loop observes it: page `i` (0-based) reads the flag at point `2*i` (the
loop check before starting the page) and at point `2*i + 1` (the per-page
check after its recognition completes, before storing).  `cancelAt = some
c` means the flag reads true from observation point `c` on (the flag is
only ever set, never cleared, during one batch run); `none` means cancel
is never requested. -/

/-- Whether `this.ocrCancelled` reads true at observation point `p`. -/
def cancelSeen (cancelAt : Option Nat) (p : Nat) : Bool :=
  match cancelAt with
  | none => false
  | some c => decide (c ≤ p)

/-- `TiffViewer.ocrPage` for page `idx`: keep an already-stored result
untouched; otherwise run the recognition round trip and store the received
result only if the cancellation flag still reads false at the post-
recognition check. -/
def ocrPage (page : Option OcrData) (idx : Nat) (result : OcrData)
    (cancelAt : Option Nat) : Option OcrData :=
  match page with
  | some d => some d
  | none =>
    if cancelSeen cancelAt (2 * idx + 1) then none else some result

/-- `TiffViewer.ocrAllPages` from page `idx` on: stop (leaving all
remaining pages untouched) as soon as the loop check observes the flag,
otherwise process the page via `ocrPage` and continue.  `results i` is the
recognition result the round trip returns for page `i`. -/
def ocrAllPages (results : Nat → OcrData) (cancelAt : Option Nat) :
    Nat → List (Option OcrData) → List (Option OcrData)
  | _, [] => []
  | idx, page :: rest =>
    if cancelSeen cancelAt (2 * idx) then page :: rest
    else ocrPage page idx (results idx) cancelAt ::
      ocrAllPages results cancelAt (idx + 1) rest

/-- C9: in a batch run over 5 unprocessed pages where cancellation becomes
visible right after page 2 completes (observation point 4, the loop check
of page 3), exactly pages 1 and 2 end up with stored OCR results and pages
3, 4, 5 never get a result attached; consequently exactly 2 results are
stored. -/
theorem batch_cancel_after_page_two_stores_exactly_two
    (results : Nat → OcrData) :
    ocrAllPages results (some 4) 0 [none, none, none, none, none]
      = [some (results 0), some (results 1), none, none, none]
    ∧ ((ocrAllPages results (some 4) 0
          [none, none, none, none, none]).filterMap id).length = 2 := by
  have h : ocrAllPages results (some 4) 0 [none, none, none, none, none]
      = [some (results 0), some (results 1), none, none, none] := by
    simp [ocrAllPages, ocrPage, cancelSeen]
  exact ⟨h, by rw [h]; rfl⟩

/-! ## Content logging (viewer.js `ocrPage`, offscreen.js `DEBUG`)

offscreen.js gates its console output behind the module constant `DEBUG`
(`const DEBUG = false`): `log` and `logError` are no-ops unless a
developer flips the flag.  viewer.js has no such gate: `TiffViewer.ocrPage`
calls `console.log` directly, and its completion message interpolates
`result.text ? result.text.substring(0, 100) : '(no text)'` — the first
100 characters of the recognized document text.  Console emission is
embedded as the list of lines a run writes. -/

/-- The `DEBUG` constant of offscreen.js (production default). -/
def DEBUG : Bool := false

/-- `log(msg)` in offscreen.js: emits the line only when `DEBUG` is set. -/
def offscreenLog (msg : String) : List String :=
  if DEBUG then [msg] else []

/-- The `textPreview` expression of `TiffViewer.ocrPage`: the first 100
characters of the recognized text, or a placeholder when the text is empty
(JavaScript truthiness on strings). -/
def textPreviewOf (text : String) : String :=
  if text = "" then "(no text)" else text.take 100

/-- The completion line `console.log` writes at the end of a successful
`TiffViewer.ocrPage` run. -/
def ocrPageCompletionLog (pageIndex : Nat) (resultText : String) : String :=
  "[OCR] Completed for page " ++ toString (pageIndex + 1) ++ ": "
    ++ textPreviewOf resultText ++ "..."

/-- Console lines written by one `TiffViewer.ocrPage` run (viewer side,
no debug gate): the skip line for already-processed pages; otherwise the
start line, then either the cancel line or the received line followed by
the completion line with the text preview. -/
def ocrPageConsoleLogs (pageIndex : Nat) (alreadyProcessed : Bool)
    (cancelled : Bool) (canvasW canvasH : Nat) (resultText : String) :
    List String :=
  if alreadyProcessed then
    ["[OCR] Page " ++ toString (pageIndex + 1)
      ++ " already processed, skipping"]
  else
    ("[OCR] Starting recognition for page " ++ toString (pageIndex + 1)
        ++ ", canvas size: " ++ toString canvasW ++ "x" ++ toString canvasH)
      :: (if cancelled then ["[OCR] Cancelled"]
          else ["[OCR] Recognition result received",
                ocrPageCompletionLog pageIndex resultText])

/-- C7 (code evaluated at the failing input): with the default build
(`DEBUG = false`, which does silence the offscreen side), a successful
un-cancelled `TiffViewer.ocrPage` run on page 1 whose recognized text is
"SECRET DOCUMENT" writes to the console a line that contains the recognized
document text itself (its first 100 characters — here the whole text),
with no developer opt-in consulted anywhere on that path. -/
theorem viewer_ocrPage_logs_text_preview :
    DEBUG = false
    ∧ offscreenLog "[OCR Offscreen] Starting recognition..." = []
    ∧ ocrPageCompletionLog 0 "SECRET DOCUMENT"
        = "[OCR] Completed for page 1: " ++ "SECRET DOCUMENT".take 100 ++ "..."
    ∧ "SECRET DOCUMENT".take 100 = "SECRET DOCUMENT"
    ∧ ocrPageCompletionLog 0 "SECRET DOCUMENT"
        ∈ ocrPageConsoleLogs 0 false false 800 600 "SECRET DOCUMENT" := by
  refine ⟨rfl, rfl, ?_, ?_, ?_⟩
  · decide
  · decide
  · simp [ocrPageConsoleLogs]

end TiffOcr
